import Mathlib

/-!
Shallow embedding of the tldv-mcp-server repository.

The embedding covers:
* `src/api/tldv-api.ts` — the `TldvApi` class: constructor validation, the
  `request` retry loop, and the five operations (`getMeeting`, `getMeetings`,
  `getTranscript`, `getHighlights`, `healthCheck`);
* the zod schemas (`TldvConfigSchema`, `GetMeetingsParamsSchema`);
* the MCP tool adapter (the four `server.tool` handlers).

JSON values are modelled by the inductive `JsVal`.  A JavaScript object field
holding `undefined` is observationally absent (it is dropped by
`JSON.stringify` and by the `in` operator), so such fields are simply omitted
from the field list.

The HTTP transport (axios) is modelled by an oracle
`net : String → Nat → AttemptOutcome` giving, for each endpoint and attempt
number, either a network-level failure or a response (status, body).  The
axios layer itself follows the library's documented default behaviour, which
the source code is explicitly written against (it tests
`axios.isAxiosError(error) && error.response`):
* a network-level failure rejects with an `Error` whose message is
  "Network Error" and no attached response;
* a response whose status is outside 200..299 (the default `validateStatus`)
  rejects with an `AxiosError` carrying the response and the message
  "Request failed with status code N";
* any other response resolves.
-/

/-- JSON-like runtime values exchanged over HTTP. -/
inductive JsVal where
| null
| bool (b : Bool)
| num (n : Int)
| str (s : String)
| arr (elems : List JsVal)
| obj (fields : List (String × JsVal))

/-- Property lookup on an object literal, first match wins. -/
def lookupField : List (String × JsVal) → String → Option JsVal
| [], _ => none
| (k, v) :: rest, key => if k = key then some v else lookupField rest key

/-- Models the JavaScript `key in obj` test. -/
def hasField (fs : List (String × JsVal)) (key : String) : Bool :=
  (lookupField fs key).isSome

/-- Occurrence of `needle` as a contiguous sublist. -/
def subOccurs (needle : List Char) : List Char → Bool
| [] => needle.isEmpty
| c :: rest => needle.isPrefixOf (c :: rest) || subOccurs needle rest

/-- Models JavaScript `hay.includes(pat)`. -/
def strIncludes (hay pat : String) : Bool :=
  subOccurs pat.data hay.data

mutual

/-- Models the JavaScript `String(v)` coercion (used by the `Error`
constructor on a non-string argument). -/
def jsString : JsVal → String
| .null => "null"
| .bool b => if b then "true" else "false"
| .num n => toString n
| .str s => s
| .obj _ => "[object Object]"
| .arr es => jsArrayJoin es

/-- Models `Array.prototype.join` with the default comma separator
(`null` elements render as the empty string). -/
def jsArrayJoin : List JsVal → String
| [] => ""
| [JsVal.null] => ""
| [e] => jsString e
| JsVal.null :: rest => "," ++ jsArrayJoin rest
| e :: rest => jsString e ++ "," ++ jsArrayJoin rest

end

/-- Model of a caught JavaScript exception, as the `catch` block in
`TldvApi.request` observes it: its `message` string and, when the throw
came from axios with a received HTTP response, that response
(`error.response`). -/
structure ErrVal where
  message : String
  response : Option (Nat × JsVal)

/-- Error thrown by axios when a response arrives with a status outside the
default `validateStatus` range 200..299. -/
def mkAxiosErr (status : Nat) (body : JsVal) : ErrVal :=
  ⟨"Request failed with status code " ++ toString status, some (status, body)⟩

/-- Error thrown by line 79 of `tldv-api.ts`,
`throw new Error(response.data.message \x7c\x7c 'API request failed')`:
reading `.message` of a `null` body faults with a `TypeError`; a falsy
`message` value falls back to the generic text; a truthy non-string value is
coerced by the `Error` constructor via `String(v)`. -/
def thrownErrorFor (body : JsVal) : ErrVal :=
  match body with
  | .null => ⟨"Cannot read properties of null (reading \x27message\x27)", none⟩
  | .obj fs =>
    match lookupField fs "message" with
    | some (.str m) => if m = "" then ⟨"API request failed", none⟩ else ⟨m, none⟩
    | some (.num n) => if n = 0 then ⟨"API request failed", none⟩ else ⟨toString n, none⟩
    | some (.bool b) => if b then ⟨"true", none⟩ else ⟨"API request failed", none⟩
    | some .null => ⟨"API request failed", none⟩
    | some v => ⟨jsString v, none⟩
    | none => ⟨"API request failed", none⟩
  | _ => ⟨"API request failed", none⟩

/-- Outcome of one HTTP attempt as delivered by the transport: either a
network-level failure or a response with a status code and a JSON body. -/
inductive AttemptOutcome where
| netErr
| resp (status : Nat) (body : JsVal)

/-- Result of the `try` block of `TldvApi.request` for one attempt:
axios settles the attempt (rejecting statuses outside 200..299 with the
response attached), then lines 78-94 of `tldv-api.ts` run on a resolved
response: statuses strictly above 200 throw with the body message, a body
already shaped as an object with a `data` field passes through unchanged,
and any other body is wrapped as an object with a single `data` field. -/
def attemptResult : AttemptOutcome → Except ErrVal JsVal
| .netErr => .error ⟨"Network Error", none⟩
| .resp status body =>
  if 200 ≤ status ∧ status < 300 then
    if 200 < status then
      .error (thrownErrorFor body)
    else
      match body with
      | .obj fs => if hasField fs "data" then .ok (.obj fs) else .ok (.obj [("data", .obj fs)])
      | b => .ok (.obj [("data", b)])
  else
    .error (mkAxiosErr status body)

/-- Base URL constant from `tldv-api.ts`. -/
def BASE_URL : String := "https://pasta.tldv.io/v1alpha1"

/-- Retry ceiling constant from `tldv-api.ts`. -/
def MAX_RETRIES : Nat := 3

/-- Base retry delay (ms) from `tldv-api.ts`. -/
def RETRY_DELAY : Nat := 1000

/-- Retry delay cap (ms) from `tldv-api.ts`. -/
def MAX_RETRY_DELAY : Nat := 2000

/-- Retry decision of the `catch` block (lines 97-106 of `tldv-api.ts`):
the attempt count must be below the ceiling, and the error message must
contain "Network Error", or the error must be an axios error carrying a
response with status 500 or above, or with status 429. -/
def shouldRetry (e : ErrVal) (retryCount maxRetries : Nat) : Bool :=
  decide (retryCount < maxRetries) &&
    (strIncludes e.message "Network Error" ||
      (match e.response with
       | some (s, _) => decide (500 ≤ s)
       | none => false) ||
      (match e.response with
       | some (s, _) => s == 429
       | none => false))

/-- Backoff delay before the next attempt (line 110 of `tldv-api.ts`). -/
def delay (retryCount : Nat) : Nat :=
  min (RETRY_DELAY * 2 ^ retryCount) MAX_RETRY_DELAY

/-- Terminal error envelope returned by `TldvApi.request`
(lines 119-122 of `tldv-api.ts`): data null plus the error message. -/
def errEnvelope (msg : String) : JsVal :=
  .obj [("data", .null), ("error", .str msg)]

/-- Fueled form of the `TldvApi.request` retry loop.  The second component
of the result records the sequence of backoff delays actually waited.
The fuel-zero branch is unreachable from `request` below: every retry has
`retryCount < maxRetries`, so `maxRetries - retryCount + 1` attempts always
suffice. -/
def requestFuel : Nat → (Nat → AttemptOutcome) → Nat → Nat → JsVal × List Nat
| 0, _, _, _ => (errEnvelope "Unknown error occurred", [])
| fuel + 1, outcome, retryCount, maxRetries =>
  match attemptResult (outcome retryCount) with
  | .ok v => (v, [])
  | .error e =>
    if shouldRetry e retryCount maxRetries then
      let rest := requestFuel fuel outcome (retryCount + 1) maxRetries
      (rest.1, delay retryCount :: rest.2)
    else
      (errEnvelope e.message, [])

/-- Model of `TldvApi.request`: run the retry loop for the given endpoint
against the transport oracle `net`.  Every caller in the source uses the
default arguments `retryCount = 0`, `maxRetries = MAX_RETRIES`. -/
def request (endpoint : String) (net : String → Nat → AttemptOutcome)
    (retryCount maxRetries : Nat) : JsVal × List Nat :=
  requestFuel (maxRetries - retryCount + 1) (net endpoint) retryCount maxRetries

/-- Raw input of `getMeetings`, mirroring the `GetMeetingsParams` interface:
every field is optional.  Numbers are modelled as integers (the zod schema
rejects non-integers anyway). -/
structure GetMeetingsParams where
  query : Option String := none
  page : Option Int := none
  limit : Option Int := none
  «from» : Option String := none
  «to» : Option String := none
  onlyParticipated : Option Bool := none
  meetingType : Option String := none

/-- Helper for the zod datetime check: a run of decimal digits. -/
def allDigits : List Char → Bool
| [] => true
| c :: rest => c.isDigit && allDigits rest

/-- Helper for the zod datetime check: zero or more digits followed by a
final Z. -/
def digitsThenZ : List Char → Bool
| ['Z'] => true
| c :: rest => c.isDigit && digitsThenZ rest
| [] => false

/-- Models the default `z.string().datetime()` check: the pattern
`\d\d\d\d-\d\d-\d\dT\d\d:\d\d:\d\d` with an optional fractional-second part
and a mandatory trailing Z (no UTC offsets with the default options). -/
def isIsoDatetime (s : String) : Bool :=
  match s.data with
  | y1 :: y2 :: y3 :: y4 :: '-' :: mo1 :: mo2 :: '-' :: d1 :: d2 :: 'T' ::
      h1 :: h2 :: ':' :: mi1 :: mi2 :: ':' :: s1 :: s2 :: rest =>
    allDigits [y1, y2, y3, y4, mo1, mo2, d1, d2, h1, h2, mi1, mi2, s1, s2] &&
    (rest = ['Z'] ||
      (match rest with
       | '.' :: c :: rest2 => c.isDigit && digitsThenZ rest2
       | _ => false))
  | _ => false

/-- Validated form of the meetings-list parameters: `limit` has received its
default of 50; every other field stays optional. -/
structure ValidatedGetMeetingsParams where
  query : Option String
  page : Option Int
  limit : Int
  «from» : Option String
  «to» : Option String
  onlyParticipated : Option Bool
  meetingType : Option String

/-- Models `GetMeetingsParamsSchema.parse`: collect one issue per failing
field, in the declaration order of the zod shape; on success apply the
`limit` default of 50.  Issue texts are abbreviated summaries of the zod
messages; no caller inspects them. -/
def GetMeetingsParamsSchema.parse (p : GetMeetingsParams) :
    Except (List String) ValidatedGetMeetingsParams :=
  let issues :=
    (match p.page with
     | some n => if n ≤ 0 then ["page: Number must be greater than 0"] else []
     | none => []) ++
    (match p.limit with
     | some n => if n ≤ 0 then ["limit: Number must be greater than 0"] else []
     | none => []) ++
    (match p.«from» with
     | some s => if isIsoDatetime s then [] else ["from: Invalid datetime"]
     | none => []) ++
    (match p.«to» with
     | some s => if isIsoDatetime s then [] else ["to: Invalid datetime"]
     | none => []) ++
    (match p.meetingType with
     | some m => if m = "internal" || m = "external" then [] else ["meetingType: Invalid enum value"]
     | none => [])
  if issues.isEmpty then
    .ok ⟨p.query, p.page, (p.limit).getD 50, p.«from», p.«to», p.onlyParticipated, p.meetingType⟩
  else
    .error issues

/-- Hexadecimal digit for percent-encoding. -/
def hexDigitChar (n : Nat) : Char :=
  ("0123456789ABCDEF").data.getD n '0'

/-- Per-character form-urlencoded encoding as `URLSearchParams` performs it:
ASCII alphanumerics and `*-._` pass through, space becomes `+`, anything
else is percent-encoded (code points above 255 are approximated; every value
serialized by this client is plain ASCII). -/
def formEncodeChar (c : Char) : List Char :=
  if c.isAlphanum || c = '*' || c = '-' || c = '.' || c = '_' then [c]
  else if c = ' ' then ['+']
  else ['%', hexDigitChar (c.toNat / 16 % 16), hexDigitChar (c.toNat % 16)]

/-- Form-urlencoded encoding of a value string. -/
def formEncode (s : String) : String :=
  String.mk (s.data.foldr (fun c acc => formEncodeChar c ++ acc) [])

/-- Serialization of a `URLSearchParams` pair list, as interpolated into the
request path by `getMeetings`. -/
def renderQuery (pairs : List (String × String)) : String :=
  String.intercalate "&" (pairs.map fun kv => kv.1 ++ "=" ++ formEncode kv.2)

/-- Query-parameter construction of `getMeetings` (lines 163-171 of
`tldv-api.ts`), in source order.  Each field guarded by a bare `if` is
appended only when its value is truthy (non-empty string, non-zero number);
`onlyParticipated` alone is compared against `undefined`, so a present
`false` is still serialized. -/
def getMeetingsQueryPairs (v : ValidatedGetMeetingsParams) : List (String × String) :=
  (match v.query with
   | some q => if q = "" then [] else [("query", q)]
   | none => []) ++
  (match v.page with
   | some n => if n = 0 then [] else [("page", toString n)]
   | none => []) ++
  (if v.limit = 0 then [] else [("limit", toString v.limit)]) ++
  (match v.«from» with
   | some s => if s = "" then [] else [("from", s)]
   | none => []) ++
  (match v.«to» with
   | some s => if s = "" then [] else [("to", s)]
   | none => []) ++
  (match v.onlyParticipated with
   | some b => [("onlyParticipated", if b then "true" else "false")]
   | none => []) ++
  (match v.meetingType with
   | some m => if m = "" then [] else [("meetingType", m)]
   | none => [])

/-- Raw constructor input, mirroring the `TldvConfig` interface.  The
credential is optional because the process passes
`process.env.TLDV_API_KEY`, which may be absent at runtime. -/
structure TldvConfig where
  apiKey : Option String

/-- Models `TldvConfigSchema.parse`: the credential must be present
(`z.string()`) and must pass `.min(1)`, which for a string is exactly
non-emptiness. -/
def TldvConfigSchema.parse (config : TldvConfig) : Except (List String) String :=
  match config.apiKey with
  | none => .error ["apiKey: Required"]
  | some k => if k = "" then .error ["apiKey: API key is required"] else .ok k

/-- Constructed client state: credential, base URL and the two fixed
headers (lines 48-56 of `tldv-api.ts`). -/
structure TldvApi where
  apiKey : String
  baseUrl : String
  headers : List (String × String)

/-- Models the `TldvApi` constructor.  An `Except.error` result is the
synchronously thrown zod error: construction fails before any network
activity (the constructor never touches the transport). -/
def TldvApi.make (config : TldvConfig) : Except (List String) TldvApi :=
  match TldvConfigSchema.parse config with
  | .error issues => .error issues
  | .ok key => .ok ⟨key, BASE_URL, [("x-api-key", key), ("Content-Type", "application/json")]⟩

/-- Models `TldvApi.getMeeting`. -/
def TldvApi.getMeeting (meetingId : String) (net : String → Nat → AttemptOutcome) :
    JsVal × List Nat :=
  request ("/meetings/" ++ meetingId) net 0 MAX_RETRIES

/-- Models `TldvApi.getMeetings`.  The zod `parse` call happens inside the
async method but outside the `try` of `request`, so a validation failure is
a thrown error (a rejected promise), modelled as `Except.error`; it never
reaches the transport.  A returned envelope is an `Except.ok` value. -/
def TldvApi.getMeetings (params : GetMeetingsParams)
    (net : String → Nat → AttemptOutcome) :
    Except (List String) (JsVal × List Nat) :=
  match GetMeetingsParamsSchema.parse params with
  | .error issues => .error issues
  | .ok v => .ok (request ("/meetings?" ++ renderQuery (getMeetingsQueryPairs v)) net 0 MAX_RETRIES)

/-- Models `TldvApi.getTranscript`. -/
def TldvApi.getTranscript (meetingId : String) (net : String → Nat → AttemptOutcome) :
    JsVal × List Nat :=
  request ("/meetings/" ++ meetingId ++ "/transcript") net 0 MAX_RETRIES

/-- Models `TldvApi.getHighlights`. -/
def TldvApi.getHighlights (meetingId : String) (net : String → Nat → AttemptOutcome) :
    JsVal × List Nat :=
  request ("/meetings/" ++ meetingId ++ "/highlights") net 0 MAX_RETRIES

/-- Models `TldvApi.healthCheck`. -/
def TldvApi.healthCheck (net : String → Nat → AttemptOutcome) : JsVal × List Nat :=
  request "/health" net 0 MAX_RETRIES

/-- Minimal JSON string escaping used by the serializer model. -/
def escapeJson (s : String) : String :=
  String.mk (s.data.foldr (fun c acc =>
    if c = '"' then '\\' :: '"' :: acc
    else if c = '\\' then '\\' :: '\\' :: acc
    else c :: acc) [])

mutual

/-- Models `JSON.stringify` on the values of this embedding. -/
def stringify : JsVal → String
| .null => "null"
| .bool b => if b then "true" else "false"
| .num n => toString n
| .str s => "\"" ++ escapeJson s ++ "\""
| .arr es => "[" ++ stringifyElems es ++ "]"
| .obj fs => "\x7b" ++ stringifyFields fs ++ "\x7d"

/-- Comma-separated serialization of array elements. -/
def stringifyElems : List JsVal → String
| [] => ""
| [e] => stringify e
| e :: rest => stringify e ++ "," ++ stringifyElems rest

/-- Comma-separated serialization of object fields. -/
def stringifyFields : List (String × JsVal) → String
| [] => ""
| [(k, v)] => "\"" ++ escapeJson k ++ "\":" ++ stringify v
| (k, v) :: rest => "\"" ++ escapeJson k ++ "\":" ++ stringify v ++ "," ++ stringifyFields rest

end

/-- One content item of an MCP tool result. -/
structure ToolContent where
  type : String
  text : String

/-- Result shape returned by every tool handler in `index.ts`. -/
structure ToolResult where
  content : List ToolContent

/-- Uniform serialization applied by the adapter to a client envelope:
one text content item holding the JSON serialization of the envelope,
with no inspection of the envelope's fields. -/
def serializeEnvelope (env : JsVal) : ToolResult :=
  ⟨[⟨"text", stringify env⟩]⟩

/-- Handler of the `get-meeting-metadata` tool (lines 58-68 of `index.ts`). -/
def getMeetingMetadataTool (id : String) (net : String → Nat → AttemptOutcome) : ToolResult :=
  ⟨[⟨"text", stringify (TldvApi.getMeeting id net).1⟩]⟩

/-- Handler of the `get-transcript` tool (lines 70-80 of `index.ts`). -/
def getTranscriptTool (meetingId : String) (net : String → Nat → AttemptOutcome) : ToolResult :=
  ⟨[⟨"text", stringify (TldvApi.getTranscript meetingId net).1⟩]⟩

/-- Handler of the `get-highlights` tool (lines 94-104 of `index.ts`). -/
def getHighlightsTool (meetingId : String) (net : String → Nat → AttemptOutcome) : ToolResult :=
  ⟨[⟨"text", stringify (TldvApi.getHighlights meetingId net).1⟩]⟩

/-- Handler of the `list-meetings` tool (lines 82-92 of `index.ts`); a
validation throw inside `getMeetings` propagates out of the handler. -/
def listMeetingsTool (params : GetMeetingsParams)
    (net : String → Nat → AttemptOutcome) : Except (List String) ToolResult :=
  match TldvApi.getMeetings params net with
  | .error issues => .error issues
  | .ok r => .ok ⟨[⟨"text", stringify r.1⟩]⟩

/-- Transient-failure categories exactly as the claims and spec word them:
a network-level error, an HTTP status of 500 or above, or HTTP status 429. -/
def claimTransient : AttemptOutcome → Bool
| .netErr => true
| .resp s _ => decide (500 ≤ s) || s == 429

/-- Test for a body that is an object already carrying a `data` field
(the pass-through case of `request`). -/
def hasDataField : JsVal → Bool
| .obj fs => hasField fs "data"
| _ => false

/-- Test for an object value. -/
def isJsObj : JsVal → Bool
| .obj _ => true
| _ => false

/-- Field lookup on an object value, `none` on non-objects. -/
def objLookup : JsVal → String → Option JsVal
| .obj fs, key => lookupField fs key
| _, _ => none

/-- Error text the request loop ultimately reports for a response with the
given status and body: statuses 201-299 fail at line 78-79 of `tldv-api.ts`
with the body-derived message, statuses outside 200-299 fail inside axios
with its generic status text. -/
def errTextFor (status : Nat) (body : JsVal) : String :=
  if status < 300 then (thrownErrorFor body).message
  else "Request failed with status code " ++ toString status

/-- Observation used by claim C1: an `Except.error` result of `getMeetings`
is a thrown validation error (a rejected promise), not a returned envelope. -/
def isThrown : Except (List String) (JsVal × List Nat) → Bool
| .error _ => true
| .ok _ => false

theorem shouldRetry_lt (e : ErrVal) (rc mr : Nat) (h : shouldRetry e rc mr = true) :
    rc < mr := by
  unfold shouldRetry at h
  rw [Bool.and_eq_true] at h
  exact of_decide_eq_true h.1

theorem request_one_ok (ep : String) (net : String → Nat → AttemptOutcome)
    (rc mr : Nat) (v : JsVal) (h : attemptResult (net ep rc) = .ok v) :
    request ep net rc mr = (v, []) := by
  unfold request
  obtain ⟨f, hf⟩ : ∃ f, mr - rc + 1 = f + 1 := ⟨mr - rc, rfl⟩
  rw [hf]
  simp only [requestFuel, h]

theorem request_one_error (ep : String) (net : String → Nat → AttemptOutcome)
    (rc mr : Nat) (e : ErrVal) (h1 : attemptResult (net ep rc) = .error e)
    (h2 : shouldRetry e rc mr = false) :
    request ep net rc mr = (errEnvelope e.message, []) := by
  unfold request
  obtain ⟨f, hf⟩ : ∃ f, mr - rc + 1 = f + 1 := ⟨mr - rc, rfl⟩
  rw [hf]
  simp only [requestFuel, h1, h2, Bool.false_eq_true, if_false]

theorem request_retry_step (ep : String) (net : String → Nat → AttemptOutcome)
    (rc mr : Nat) (e : ErrVal) (h1 : attemptResult (net ep rc) = .error e)
    (h2 : shouldRetry e rc mr = true) :
    request ep net rc mr =
      ((request ep net (rc + 1) mr).1, delay rc :: (request ep net (rc + 1) mr).2) := by
  have hrc : rc < mr := shouldRetry_lt e rc mr h2
  unfold request
  have hf : mr - rc + 1 = (mr - (rc + 1) + 1) + 1 := by omega
  rw [hf]
  simp only [requestFuel, h1, h2, if_true]

theorem requestFuel_const_error (o : AttemptOutcome) (e : ErrVal)
    (h : attemptResult o = .error e) :
    ∀ (fuel rc mr : Nat), fuel = mr - rc + 1 →
      (requestFuel fuel (fun _ => o) rc mr).1 = errEnvelope e.message := by
  intro fuel
  induction fuel with
  | zero => intro rc mr hf; omega
  | succ f ih =>
    intro rc mr hf
    simp only [requestFuel, h]
    by_cases hr : shouldRetry e rc mr = true
    · have hrc : rc < mr := shouldRetry_lt e rc mr hr
      rw [if_pos hr]
      exact ih (rc + 1) mr (by omega)
    · rw [if_neg hr]

theorem request_const_error (ep : String) (o : AttemptOutcome) (e : ErrVal)
    (h : attemptResult o = .error e) (rc mr : Nat) :
    (request ep (fun _ _ => o) rc mr).1 = errEnvelope e.message :=
  requestFuel_const_error o e h (mr - rc + 1) rc mr rfl

theorem attemptResult_200 (body : JsVal) :
    attemptResult (.resp 200 body) =
      (match body with
       | .obj fs => if hasField fs "data" then .ok (.obj fs) else .ok (.obj [("data", .obj fs)])
       | b => .ok (.obj [("data", b)])) := by
  simp only [attemptResult]
  rw [if_pos (by omega : (200:Nat) ≤ 200 ∧ (200:Nat) < 300), if_neg (by omega : ¬ (200:Nat) < 200)]

/-- C1 (corrected): for a call to `getMeetings` with malformed input
parameters, the operation terminates without issuing any HTTP request and
without retrying — the result does not depend on the transport oracle at
all — but it does NOT return an error envelope: the zod parse failure is a
raised fault (a rejected promise), modelled as `Except.error`. -/
theorem claim_C1 (params : GetMeetingsParams) (issues : List String)
    (h : GetMeetingsParamsSchema.parse params = .error issues) :
    (∀ net, TldvApi.getMeetings params net = .error issues) ∧
    (∀ net net2, TldvApi.getMeetings params net = TldvApi.getMeetings params net2) := by
  constructor
  · intro net
    unfold TldvApi.getMeetings
    rw [h]
  · intro net net2
    unfold TldvApi.getMeetings
    rw [h]

/-- C1 witness: `getMeetings` with a negative page fails validation and the
fault is raised before any HTTP request. -/
theorem claim_C1_witness :
    GetMeetingsParamsSchema.parse ⟨none, some (-1), none, none, none, none, none⟩
      = .error ["page: Number must be greater than 0"] ∧
    TldvApi.getMeetings ⟨none, some (-1), none, none, none, none, none⟩ (fun _ _ => .netErr)
      = .error ["page: Number must be greater than 0"] :=
  ⟨rfl, (claim_C1 ⟨none, some (-1), none, none, none, none, none⟩
    ["page: Number must be greater than 0"] (by rfl)).1 (fun _ _ => .netErr)⟩

/-- C1 counterexample: at `page = -1` the operation does not return an
error envelope (an `Except.ok` value holding the envelope); it raises the
validation fault to its caller (`Except.error`, i.e. a rejected promise). -/
theorem claim_C1_counterexample :
    TldvApi.getMeetings ⟨none, some (-1), none, none, none, none, none⟩ (fun _ _ => .resp 200 .null)
      = .error ["page: Number must be greater than 0"] ∧
    isThrown (TldvApi.getMeetings ⟨none, some (-1), none, none, none, none, none⟩
      (fun _ _ => .resp 200 .null)) = true :=
  ⟨rfl, rfl⟩

/-- C2 (amended): every response with status 201-599 is treated as a
failure.  For statuses 201-299 the error text is derived from the body at
line 78-79 of `tldv-api.ts` (the body `message` field when it is a truthy
string, else the generic "API request failed"); for statuses 300-599 the
attempt already fails inside axios, so the error text is the transport's
"Request failed with status code N" regardless of the body. -/
theorem claim_C2 (ep : String) (status : Nat) (body : JsVal)
    (h1 : 201 ≤ status) (h2 : status ≤ 599) :
    (request ep (fun _ _ => .resp status body) 0 MAX_RETRIES).1
      = errEnvelope (errTextFor status body) := by
  by_cases h3 : status < 300
  · have hres : attemptResult (.resp status body) = .error (thrownErrorFor body) := by
      simp only [attemptResult]
      rw [if_pos (⟨by omega, h3⟩ : 200 ≤ status ∧ status < 300), if_pos (by omega : 200 < status)]
    have h4 := request_const_error ep (.resp status body) (thrownErrorFor body) hres 0 MAX_RETRIES
    rw [h4]
    unfold errTextFor
    rw [if_pos h3]
  · have hres : attemptResult (.resp status body) = .error (mkAxiosErr status body) := by
      simp only [attemptResult]
      rw [if_neg (by omega : ¬ (200 ≤ status ∧ status < 300))]
    have h4 := request_const_error ep (.resp status body) (mkAxiosErr status body) hres 0 MAX_RETRIES
    rw [h4]
    unfold errTextFor
    rw [if_neg h3]
    rfl

/-- C2 witness: a 503 response is treated as a failure with the transport
error text. -/
theorem claim_C2_witness :
    (201 ≤ 503 ∧ 503 ≤ 599) ∧
    (request "/health" (fun _ _ => .resp 503 JsVal.null) 0 MAX_RETRIES).1
      = errEnvelope "Request failed with status code 503" :=
  ⟨⟨by decide, by decide⟩,
    (claim_C2 "/health" 503 JsVal.null (by decide) (by decide)).trans rfl⟩

/-- C2 counterexample: a 404 response whose JSON body carries
`message: "Not found"` yields the transport's generic error text, not the
body message, because axios rejects the attempt before line 78 of
`tldv-api.ts` can read the body. -/
theorem claim_C2_counterexample :
    (request "/health" (fun _ _ => .resp 404 (.obj [("message", .str "Not found")])) 0 MAX_RETRIES).1
      = errEnvelope "Request failed with status code 404" ∧
    ("Request failed with status code 404" : String) ≠ "Not found" :=
  ⟨rfl, by decide⟩

/-- C3 (amended): a retry happens only while the attempt count is below the
ceiling of 3; network-level failures (message "Network Error"), HTTP
statuses of 500 and above, and HTTP 429 are all retried; and a 404 yields
the error envelope immediately, with zero retries and zero wait.  The
network-error test, however, is a message-substring check (see the
counterexample), so the claim's strict "if and only if" fails. -/
theorem claim_C3 :
    (∀ e rc mr, shouldRetry e rc mr = true → rc < mr) ∧
    (∀ rc, rc < MAX_RETRIES →
      shouldRetry ⟨"Network Error", none⟩ rc MAX_RETRIES = true) ∧
    (∀ s body rc, rc < MAX_RETRIES → 500 ≤ s →
      shouldRetry (mkAxiosErr s body) rc MAX_RETRIES = true) ∧
    (∀ body rc, rc < MAX_RETRIES →
      shouldRetry (mkAxiosErr 429 body) rc MAX_RETRIES = true) ∧
    (∀ s body, s < 200 ∨ 300 ≤ s →
      attemptResult (.resp s body) = .error (mkAxiosErr s body)) ∧
    (∀ ep body, request ep (fun _ _ => .resp 404 body) 0 MAX_RETRIES
      = (errEnvelope "Request failed with status code 404", [])) := by
  refine ⟨shouldRetry_lt, ?_, ?_, ?_, ?_, ?_⟩
  · intro rc h
    unfold shouldRetry
    rw [decide_eq_true h, Bool.true_and]
    decide
  · intro s body rc h hs
    unfold shouldRetry mkAxiosErr
    rw [decide_eq_true h, Bool.true_and]
    simp only [decide_eq_true hs]
    simp
  · intro body rc h
    unfold shouldRetry mkAxiosErr
    rw [decide_eq_true h, Bool.true_and]
    simp
  · intro s body h
    simp only [attemptResult]
    rw [if_neg (by omega : ¬ (200 ≤ s ∧ s < 300))]
  · intro ep body
    have h1 : attemptResult ((fun (_ : String) (_ : Nat) => AttemptOutcome.resp 404 body) ep 0)
        = Except.error (mkAxiosErr 404 body) := rfl
    have h2 : shouldRetry (mkAxiosErr 404 body) 0 MAX_RETRIES = false := rfl
    exact request_one_error ep _ 0 MAX_RETRIES _ h1 h2

/-- C3 witness: a network-level failure, a 503 and a 429 are all retried
below the ceiling, and a 404 returns the envelope at once with no wait. -/
theorem claim_C3_witness :
    shouldRetry ⟨"Network Error", none⟩ 0 MAX_RETRIES = true ∧
    shouldRetry (mkAxiosErr 503 JsVal.null) 1 MAX_RETRIES = true ∧
    shouldRetry (mkAxiosErr 429 JsVal.null) 2 MAX_RETRIES = true ∧
    request "/x" (fun _ _ => .resp 404 JsVal.null) 0 MAX_RETRIES
      = (errEnvelope "Request failed with status code 404", []) :=
  ⟨claim_C3.2.1 0 (by decide),
   claim_C3.2.2.1 503 JsVal.null 1 (by decide) (by decide),
   claim_C3.2.2.2.1 JsVal.null 2 (by decide),
   claim_C3.2.2.2.2.2 "/x" JsVal.null⟩

/-- C3 counterexample: a 201 response whose body message is the string
"Network Error" is none of the claim's transient categories (not a
network-level error, not a 5xx, not a 429), yet the code retries it — the
delay list records one 1000ms wait and the second attempt's success is
returned — so the claim's "if and only if" is false. -/
theorem claim_C3_counterexample :
    claimTransient (.resp 201 (.obj [("message", .str "Network Error")])) = false ∧
    request "/h"
      (fun _ n => if n == 0 then .resp 201 (.obj [("message", .str "Network Error")])
                  else .resp 200 (.obj [("data", .str "ok")])) 0 MAX_RETRIES
      = (.obj [("data", .str "ok")], [1000]) :=
  ⟨rfl, rfl⟩

/-- C4: a successful response (status at most 200; the transport delivers no
final status below 200, so this is exactly status 200) passes an object body
that already has a `data` field through unchanged as the envelope, and wraps
any other body as an object with a single `data` field. -/
theorem claim_C4 (ep : String) (status : Nat) (body : JsVal)
    (h1 : 200 ≤ status) (h2 : status ≤ 200) :
    (hasDataField body = true →
      request ep (fun _ _ => .resp status body) 0 MAX_RETRIES = (body, [])) ∧
    (hasDataField body = false →
      request ep (fun _ _ => .resp status body) 0 MAX_RETRIES = (.obj [("data", body)], [])) := by
  have hs : status = 200 := Nat.le_antisymm h2 h1
  subst hs
  constructor
  · intro hd
    cases body with
    | obj fs =>
      apply request_one_ok
      show attemptResult (AttemptOutcome.resp 200 (JsVal.obj fs)) = Except.ok (JsVal.obj fs)
      rw [attemptResult_200]
      simp only [hasDataField] at hd
      simp [hd]
    | null => simp [hasDataField] at hd
    | bool b => simp [hasDataField] at hd
    | num n => simp [hasDataField] at hd
    | str s => simp [hasDataField] at hd
    | arr es => simp [hasDataField] at hd
  · intro hd
    apply request_one_ok
    show attemptResult (AttemptOutcome.resp 200 body) = Except.ok (JsVal.obj [("data", body)])
    rw [attemptResult_200]
    cases body with
    | obj fs =>
      simp only [hasDataField] at hd
      simp [hd]
    | null => rfl
    | bool b => rfl
    | num n => rfl
    | str s => rfl
    | arr es => rfl

/-- C4 witness: a 200 response with body already shaped as an object with a
`data` field is returned unchanged, and a bare string body is wrapped. -/
theorem claim_C4_witness :
    (200 ≤ 200 ∧ (200:Nat) ≤ 200 ∧ hasDataField (.obj [("data", .str "X")]) = true) ∧
    request "/health" (fun _ _ => .resp 200 (.obj [("data", .str "X")])) 0 MAX_RETRIES
      = (.obj [("data", .str "X")], []) ∧
    request "/health" (fun _ _ => .resp 200 (.str "Y")) 0 MAX_RETRIES
      = (.obj [("data", .str "Y")], []) :=
  ⟨⟨le_refl 200, le_refl 200, rfl⟩,
   (claim_C4 "/health" 200 (.obj [("data", .str "X")]) (le_refl 200) (le_refl 200)).1 rfl,
   (claim_C4 "/health" 200 (.str "Y") (le_refl 200) (le_refl 200)).2 rfl⟩

/-- C5: the backoff delay at attempt count n is min(1000ms * 2^n, 2000ms) —
1000ms at n = 0 and exactly 2000ms for every n at least 1 — and on a
retryable failure the request waits that delay and recurses with attempt
count n + 1. -/
theorem claim_C5 :
    (∀ n, delay n = min (1000 * 2 ^ n) 2000) ∧
    delay 0 = 1000 ∧
    (∀ n, 1 ≤ n → delay n = 2000) ∧
    (∀ ep net rc mr e, attemptResult (net ep rc) = .error e →
      shouldRetry e rc mr = true →
      request ep net rc mr =
        ((request ep net (rc + 1) mr).1, delay rc :: (request ep net (rc + 1) mr).2)) := by
  refine ⟨fun n => rfl, by decide, ?_, request_retry_step⟩
  intro n h
  have h2 : (2:Nat) ≤ 2 ^ n := by
    calc (2:Nat) = 2 ^ 1 := (pow_one 2).symm
    _ ≤ 2 ^ n := Nat.pow_le_pow_right (by omega) h
  unfold delay RETRY_DELAY MAX_RETRY_DELAY
  omega

/-- C5 witness: a constant-503 oracle at attempt 0 waits `delay 0` and
recurses at attempt count 1; the delay at attempt 1 is 2000ms. -/
theorem claim_C5_witness :
    delay 1 = 2000 ∧
    request "/health" (fun _ _ => .resp 503 JsVal.null) 0 3
      = ((request "/health" (fun _ _ => .resp 503 JsVal.null) 1 3).1,
         delay 0 :: (request "/health" (fun _ _ => .resp 503 JsVal.null) 1 3).2) :=
  ⟨claim_C5.2.2.1 1 (by decide),
   claim_C5.2.2.2 "/health" (fun _ _ => .resp 503 JsVal.null) 0 3
     (mkAxiosErr 503 JsVal.null) (by rfl) (by rfl)⟩

/-- C6: constructing the client succeeds exactly when the credential is
present and non-empty; a missing or empty credential makes the constructor
fail synchronously (the constructor takes no transport oracle, so no HTTP
request can be involved). -/
theorem claim_C6 (config : TldvConfig) :
    (∃ api, TldvApi.make config = .ok api) ↔
      ∃ k, config.apiKey = some k ∧ k ≠ "" := by
  obtain ⟨apiKey⟩ := config
  cases apiKey with
  | none => simp [TldvApi.make, TldvConfigSchema.parse]
  | some k =>
    by_cases hk : k = ""
    · subst hk
      simp [TldvApi.make, TldvConfigSchema.parse]
    · simp [TldvApi.make, TldvConfigSchema.parse, hk]

/-- C7: `getMeetings` with no parameters serializes only the defaulted
`limit=50`; with page 2 and limit 10 it serializes exactly `page=2` and
`limit=10`, in that order, and nothing else. -/
theorem claim_C7 :
    GetMeetingsParamsSchema.parse ⟨none, none, none, none, none, none, none⟩
      = .ok ⟨none, none, 50, none, none, none, none⟩ ∧
    getMeetingsQueryPairs ⟨none, none, 50, none, none, none, none⟩
      = [("limit", "50")] ∧
    GetMeetingsParamsSchema.parse ⟨none, some 2, some 10, none, none, none, none⟩
      = .ok ⟨none, some 2, 10, none, none, none, none⟩ ∧
    getMeetingsQueryPairs ⟨none, some 2, 10, none, none, none, none⟩
      = [("page", "2"), ("limit", "10")] ∧
    (∀ net, TldvApi.getMeetings ⟨none, none, none, none, none, none, none⟩ net
      = .ok (request "/meetings?limit=50" net 0 MAX_RETRIES)) ∧
    (∀ net, TldvApi.getMeetings ⟨none, some 2, some 10, none, none, none, none⟩ net
      = .ok (request "/meetings?page=2&limit=10" net 0 MAX_RETRIES)) :=
  ⟨rfl, rfl, rfl, rfl, fun _ => rfl, fun _ => rfl⟩

/-- C8: each of the four tool handlers returns, as its sole output payload,
one text item holding the JSON serialization of the full envelope produced
by the matching client operation; the serialization step is the same
function of the envelope in every case and depends only on the envelope's
serialized form, never branching on its error field. -/
theorem claim_C8 :
    (∀ id net, getMeetingMetadataTool id net
      = serializeEnvelope (TldvApi.getMeeting id net).1) ∧
    (∀ mid net, getTranscriptTool mid net
      = serializeEnvelope (TldvApi.getTranscript mid net).1) ∧
    (∀ mid net, getHighlightsTool mid net
      = serializeEnvelope (TldvApi.getHighlights mid net).1) ∧
    (∀ p net, listMeetingsTool p net
      = (TldvApi.getMeetings p net).map fun r => serializeEnvelope r.1) ∧
    (∀ e1 e2, stringify e1 = stringify e2 →
      serializeEnvelope e1 = serializeEnvelope e2) := by
  refine ⟨fun _ _ => rfl, fun _ _ => rfl, fun _ _ => rfl, ?_, ?_⟩
  · intro p net
    unfold listMeetingsTool
    cases h : TldvApi.getMeetings p net <;> simp [h, Except.map, serializeEnvelope]
  · intro e1 e2 h
    unfold serializeEnvelope
    rw [h]

/-- C8 witness: the uniform serialization applied to an error envelope and
to the same envelope written out literally agree. -/
theorem claim_C8_witness :
    serializeEnvelope (errEnvelope "boom")
      = serializeEnvelope (.obj [("data", .null), ("error", .str "boom")]) :=
  claim_C8.2.2.2.2 (errEnvelope "boom")
    (.obj [("data", .null), ("error", .str "boom")]) rfl

/-- C9: a successful response (status at most 200, hence exactly 200 — see
C4) whose body is null or not an object is wrapped as an envelope whose
`data` field is the body and whose `error` field is absent, so a null
payload does not by itself signal failure. -/
theorem claim_C9 (ep : String) (status : Nat) (body : JsVal)
    (h1 : 200 ≤ status) (h2 : status ≤ 200) (h3 : isJsObj body = false) :
    request ep (fun _ _ => .resp status body) 0 MAX_RETRIES
      = (.obj [("data", body)], []) ∧
    objLookup (request ep (fun _ _ => .resp status body) 0 MAX_RETRIES).1 "error"
      = none := by
  have hs : status = 200 := Nat.le_antisymm h2 h1
  subst hs
  have hmain : request ep (fun _ _ => AttemptOutcome.resp 200 body) 0 MAX_RETRIES
      = (.obj [("data", body)], []) := by
    apply request_one_ok
    show attemptResult (AttemptOutcome.resp 200 body) = Except.ok (JsVal.obj [("data", body)])
    rw [attemptResult_200]
    cases body with
    | obj fs => simp [isJsObj] at h3
    | null => rfl
    | bool b => rfl
    | num n => rfl
    | str s => rfl
    | arr es => rfl
  refine ⟨hmain, ?_⟩
  rw [hmain]
  rfl

/-- C9 witness: a 200 response with a null body yields the success envelope
with a null `data` field and no `error` field. -/
theorem claim_C9_witness :
    (200 ≤ 200 ∧ (200:Nat) ≤ 200 ∧ isJsObj JsVal.null = false) ∧
    request "/health" (fun _ _ => .resp 200 JsVal.null) 0 MAX_RETRIES
      = (.obj [("data", JsVal.null)], []) ∧
    objLookup (request "/health" (fun _ _ => .resp 200 JsVal.null) 0 MAX_RETRIES).1 "error"
      = none :=
  ⟨⟨le_refl 200, le_refl 200, rfl⟩,
   claim_C9 "/health" 200 JsVal.null (le_refl 200) (le_refl 200) rfl⟩

/-- C10: a validated falsy optional value is dropped from the query even
when explicitly supplied — `query: ""` passes validation and produces no
query parameter — while `onlyParticipated: false` is compared against
undefined and is serialized as `onlyParticipated=false`. -/
theorem claim_C10 :
    GetMeetingsParamsSchema.parse ⟨some "", none, none, none, none, some false, none⟩
      = .ok ⟨some "", none, 50, none, none, some false, none⟩ ∧
    getMeetingsQueryPairs ⟨some "", none, 50, none, none, some false, none⟩
      = [("limit", "50"), ("onlyParticipated", "false")] ∧
    (∀ net, TldvApi.getMeetings ⟨some "", none, none, none, none, some false, none⟩ net
      = .ok (request "/meetings?limit=50&onlyParticipated=false" net 0 MAX_RETRIES)) :=
  ⟨rfl, rfl, fun _ => rfl⟩
